import Mathlib

/-!
Shallow embedding of the PiNasSystem storage server (src/server.ts).

The metadata store is the pair of SQLite tables `folders` and `files`; the
blob store is the flat `uploads` directory, modelled as the list of storage
keys currently present. Each HTTP handler is embedded as a pure function
from the store state (and the request parameters) to the new state and the
response it sends. Timestamps are modelled as naturals supplied by the
caller; the randomly generated ids and multer storage keys are likewise
taken as parameters. Blob deletion (`fs.unlinkSync`) may fail for a real
I/O reason; this is modelled by a parameter `uf : String → Bool` telling
which keys fail to unlink.
-/

namespace PiNas

/-- A row of the `folders` table (schema at src/server.ts lines 23-28).
`parent_id` is NULL (none) for a folder at the root. -/
structure FolderRow where
  id : String
  name : String
  parent_id : Option String
  created_at : Nat
deriving Repr, DecidableEq

/-- A row of the `files` table (schema at src/server.ts lines 30-38).
`name` is the multer-generated storage key of the blob; `folder_id` is
NULL (none) for a file at the root. -/
structure FileRow where
  id : String
  name : String
  original_name : String
  mime_type : String
  size : Nat
  folder_id : Option String
  upload_date : Nat
deriving Repr, DecidableEq

/-- The whole persistent state: the two tables plus the set of storage keys
present in the uploads directory (the blob store). -/
structure NasState where
  folders : List FolderRow
  files : List FileRow
  blobs : List String
deriving Repr, DecidableEq

/-- The empty store: fresh database, empty uploads directory. -/
def initState : NasState := ⟨[], [], []⟩

/-- The response a handler sends, by HTTP status and JSON body shape. -/
inductive ApiResult
  | okIdName (id name : String)
  | okSuccess
  | badRequest (error : String)
  | notFound (error : String)
  | serverError (error : String)
deriving Repr, DecidableEq

/-- Whether a response is the 404 not-found shape. -/
def ApiResult.isNotFound : ApiResult → Bool
  | .notFound _ => true
  | _ => false

/-- The wire-to-internal translation of the folder reference: the sentinel
string "root" maps to NULL, every other string is kept (src/server.ts
lines 68, 83, 131 all apply the identical conditional). -/
def resolveRoot (wire : String) : Option String :=
  if wire = "root" then none else some wire

/-- `SELECT * FROM files WHERE id = ?` followed by `.get`: the first row
with that id, if any (ids are primary keys, so at most one exists). -/
def findFile (st : NasState) (id : String) : Option FileRow :=
  st.files.find? (fun f => f.id == id)

/-- Ascending-by-name order used by `ORDER BY name ASC` on folders. -/
def folderNameLe (a b : FolderRow) : Prop := a.name ≤ b.name

instance : DecidableRel folderNameLe :=
  fun a b => inferInstanceAs (Decidable (a.name ≤ b.name))

instance : IsTotal FolderRow folderNameLe := ⟨fun a b => le_total a.name b.name⟩

instance : IsTrans FolderRow folderNameLe := ⟨fun _ _ _ h h2 => le_trans h h2⟩

/-- Descending-by-upload-date order used by `ORDER BY upload_date DESC`. -/
def fileDateGe (a b : FileRow) : Prop := b.upload_date ≤ a.upload_date

instance : DecidableRel fileDateGe :=
  fun a b => inferInstanceAs (Decidable (b.upload_date ≤ a.upload_date))

instance : IsTotal FileRow fileDateGe := ⟨fun a b => le_total b.upload_date a.upload_date⟩

instance : IsTrans FileRow fileDateGe := ⟨fun _ _ _ h h2 => le_trans h2 h⟩

/-- Response body of GET /api/contents. -/
structure ContentsResult where
  folders : List FolderRow
  files : List FileRow
deriving Repr, DecidableEq

/-- GET /api/contents (src/server.ts lines 67-76): translate the folderId
query parameter, then run the two SELECTs. The handler only reads: the
state is not part of the result. -/
def getContents (st : NasState) (folderIdWire : String) : ContentsResult :=
  let folderId := resolveRoot folderIdWire
  { folders := List.insertionSort folderNameLe
      (st.folders.filter (fun f => f.parent_id == folderId))
  , files := List.insertionSort fileDateGe
      (st.files.filter (fun f => f.folder_id == folderId)) }

/-- POST /api/folders (src/server.ts lines 78-91): reject a missing/empty
name with 400, translate "root" to NULL, insert the row. The INSERT throws
on a primary-key collision, which the catch turns into a 500. -/
def createFolder (st : NasState) (id name parentIdWire : String) (now : Nat) :
    NasState × ApiResult :=
  if name = "" then (st, .badRequest "Name is required")
  else
    let pId := resolveRoot parentIdWire
    if st.folders.any (fun f => f.id == id) then
      (st, .serverError "Failed to create folder")
    else
      ({ st with folders := st.folders ++ [⟨id, name, pId, now⟩] }, .okIdName id name)

/-- The forEach loop of the folder-delete handler: for each storage key of a
file in the folder, check existence and unlink. A failing unlink throws out
of the loop, leaving the keys already processed removed and the rest (the
failing key included) still present. -/
def unlinkLoop (uf : String → Bool) : List String → List String →
    Except (List String) (List String)
  | blobs, [] => .ok blobs
  | blobs, k :: ks =>
    if blobs.contains k then
      if uf k then .error blobs
      else unlinkLoop uf (blobs.erase k) ks
    else unlinkLoop uf blobs ks

/-- DELETE /api/folders/:id (src/server.ts lines 93-113): select the files
directly in the folder, unlink their blobs, then delete those file rows and
the folder row. No existence check on the folder id, and no recursion into
child folders. A throw from an unlink is caught and answered with 500. -/
def deleteFolder (st : NasState) (id : String) (uf : String → Bool) :
    NasState × ApiResult :=
  let filesInFolder := st.files.filter (fun f => f.folder_id == some id)
  match unlinkLoop uf st.blobs (filesInFolder.map (fun f => f.name)) with
  | .error blobsLeft =>
      ({ st with blobs := blobsLeft }, .serverError "Failed to delete folder")
  | .ok blobsLeft =>
      ({ folders := st.folders.filter (fun f => !(f.id == id))
       , files := st.files.filter (fun f => !(f.folder_id == some id))
       , blobs := blobsLeft }, .okSuccess)

/-- GET /api/files (src/server.ts lines 115-122): all file rows, newest
first. -/
def listFiles (st : NasState) : List FileRow :=
  List.insertionSort fileDateGe st.files

/-- POST /api/upload (src/server.ts lines 124-142): multer has already
persisted the uploaded bytes under the generated storage key `key` by the
time the handler body runs, so the blob is added first unconditionally.
The handler then translates the folderId field and runs the INSERT; a
throwing INSERT (primary-key collision) is caught and answered with 500 —
the blob is left in place. -/
def uploadFile (st : NasState) (fileId key origName mime : String) (size : Nat)
    (folderIdWire : String) (date : Nat) : NasState × ApiResult :=
  let st1 : NasState := { st with blobs := key :: st.blobs }
  let folderId := resolveRoot folderIdWire
  if st1.files.any (fun f => f.id == fileId) then
    (st1, .serverError "Failed to save file metadata")
  else
    ({ st1 with
        files := st1.files ++ [⟨fileId, key, origName, mime, size, folderId, date⟩] },
     .okIdName fileId origName)

/-- What GET /api/files/:id/download sends (src/server.ts lines 144-154):
either the 404 body, or `res.download` on the path built from the stored
storage key, tagged with the original name. The handler makes no check
that the blob exists: there is no third outcome. -/
inductive DownloadResult
  | notFound (error : String)
  | download (storageKey origName : String)
deriving Repr, DecidableEq

/-- GET /api/files/:id/download (src/server.ts lines 144-154). -/
def downloadFile (st : NasState) (id : String) : DownloadResult :=
  match findFile st id with
  | none => .notFound "File not found"
  | some f => .download f.name f.original_name

/-- DELETE /api/files/:id (src/server.ts lines 156-174): look the row up
(404 if absent); unlink the blob if it exists (a throwing unlink is caught
and answered with 500, before the row is touched); then delete the row. -/
def deleteFile (st : NasState) (id : String) (uf : String → Bool) :
    NasState × ApiResult :=
  match findFile st id with
  | none => (st, .notFound "File not found")
  | some f =>
    let remaining := st.files.filter (fun g => !(g.id == id))
    if st.blobs.contains f.name then
      if uf f.name then (st, .serverError "Failed to delete file")
      else
        ({ st with blobs := st.blobs.erase f.name, files := remaining }, .okSuccess)
    else
      ({ st with files := remaining }, .okSuccess)

/-- POST /api/rename (src/server.ts lines 184-198): 400 when id, type or
newName is falsy; otherwise UPDATE files.original_name when type is exactly
"file", and UPDATE folders.name for every other type. An UPDATE matching no
row is still a success. -/
def renameEntry (st : NasState) (id type newName : String) : NasState × ApiResult :=
  if id = "" || type = "" || newName = "" then (st, .badRequest "Missing parameters")
  else if type = "file" then
    let upd := fun (f : FileRow) =>
      if f.id == id then { f with original_name := newName } else f
    ({ st with files := st.files.map upd }, .okSuccess)
  else
    let upd := fun (f : FolderRow) =>
      if f.id == id then { f with name := newName } else f
    ({ st with folders := st.folders.map upd }, .okSuccess)

/-- SQL `SUM(size)`: NULL (none) on the empty relation, the sum otherwise. -/
def sqlSum (xs : List Nat) : Option Nat := if xs.isEmpty then none else some xs.sum

/-- Response body of GET /api/stats. -/
structure Stats where
  count : Nat
  totalSize : Nat
deriving Repr, DecidableEq

/-- GET /api/stats (src/server.ts lines 200-210): COUNT(*) and SUM(size)
over the files table, with the JavaScript `|| 0` collapsing the NULL sum of
an empty table to zero. -/
def computeStats (st : NasState) : Stats :=
  { count := st.files.length
  , totalSize := (sqlSum (st.files.map (fun f => f.size))).getD 0 }

/-- An unlink environment in which no key fails to unlink. -/
def noFailUnlink : String → Bool := fun _ => false

/-- One API request, with the request data the handlers consume. Read-only
requests are kept so that the operation alphabet covers the whole API. -/
inductive Op
  | contents (folderIdWire : String)
  | newFolder (id name parentIdWire : String) (now : Nat)
  | delFolder (id : String) (uf : String → Bool)
  | listAll
  | upload (fileId key origName mime : String) (size : Nat) (folderIdWire : String) (date : Nat)
  | download (id : String)
  | delFile (id : String) (uf : String → Bool)
  | renameOp (id type newName : String)
  | stats

/-- The state after serving one request. -/
def step (st : NasState) : Op → NasState
  | .contents _ => st
  | .newFolder i n p t => (createFolder st i n p t).1
  | .delFolder i uf => (deleteFolder st i uf).1
  | .listAll => st
  | .upload fi k o m s w d => (uploadFile st fi k o m s w d).1
  | .download _ => st
  | .delFile i uf => (deleteFile st i uf).1
  | .renameOp i ty n => (renameEntry st i ty n).1
  | .stats => st

/-- The state reached from a fresh store by a sequence of requests. -/
def runOps (ops : List Op) : NasState := ops.foldl step initState

/-- No stored folder reference is the literal wire sentinel "root". -/
def noRootStored (st : NasState) : Prop :=
  (∀ f ∈ st.folders, f.parent_id ≠ some "root") ∧
  (∀ f ∈ st.files, f.folder_id ≠ some "root")

/-- Fixture: a single file row whose blob key is "k1". -/
def fileA : FileRow := ⟨"a", "k1", "o", "m", 5, none, 0⟩

/-- Fixture: a store holding just `fileA` and its blob. -/
def stOne : NasState := ⟨[], [fileA], ["k1"]⟩

/-- Fixture: the upload request that collides with `fileA` on the primary
key "a" after multer stored the bytes under the fresh key "k2". -/
def uploadC1 : NasState × ApiResult :=
  uploadFile stOne "a" "k2" "b.txt" "text/plain" 3 "root" 1

/-- Fixture: the spec scenario F1 at root, F2 inside F1, A.txt (10 bytes)
inside F2 with its blob under key "k-a". -/
def stNested : NasState :=
  ⟨[⟨"f1", "F1", none, 0⟩, ⟨"f2", "F2", some "f1", 0⟩],
   [⟨"a", "k-a", "A.txt", "text/plain", 10, some "f2", 1⟩], ["k-a"]⟩

/-- Fixture: deleting F1 in the nested scenario. -/
def delC2 : NasState × ApiResult := deleteFolder stNested "f1" noFailUnlink

/-- Fixture: a store whose only file row references a blob key that is
absent from the uploads directory (externally removed). -/
def stBlobGone : NasState := ⟨[], [fileA], []⟩

/-! ## Theorems -/

/-- C1: the spec requires the orphaned blob to be removed when the metadata
insert fails after a successful blob write. The code does not: at a store
already holding a file with id "a", the upload whose generated id collides
("a", stored under fresh blob key "k2") answers 500 and leaves the blob
"k2" in the uploads directory with no file row referencing it. -/
theorem uploadFile_insert_failure_leaks_blob :
    uploadC1.2 = .serverError "Failed to save file metadata" ∧
    "k2" ∈ uploadC1.1.blobs ∧
    (∀ f ∈ uploadC1.1.files, f.name ≠ "k2") := by decide

/-- C2: the spec requires DeleteFolder to remove the whole subtree. The
code deletes only the files directly in the folder and the folder row: on
the scenario state (F1 at root, F2 inside F1, A.txt in F2), deleting F1
reports success yet leaves the child folder F2, the file row A.txt, and
its blob "k-a" all in place; ListFiles still returns A.txt and the file
count does not decrease. -/
theorem deleteFolder_not_recursive :
    delC2.2 = .okSuccess ∧
    (⟨"f2", "F2", some "f1", 0⟩ : FolderRow) ∈ delC2.1.folders ∧
    (⟨"a", "k-a", "A.txt", "text/plain", 10, some "f2", 1⟩ : FileRow) ∈ delC2.1.files ∧
    "k-a" ∈ delC2.1.blobs ∧
    (⟨"a", "k-a", "A.txt", "text/plain", 10, some "f2", 1⟩ : FileRow) ∈ listFiles delC2.1 ∧
    (computeStats delC2.1).count = (computeStats stNested).count := by decide

/-- C3 counterexample: deleting a folder id that exists nowhere reports
success with HTTP 200, not the 404 NotFound the claim states. -/
theorem deleteFolder_missing_id_counterexample :
    (deleteFolder initState "x" noFailUnlink).2 = .okSuccess ∧
    ((deleteFolder initState "x" noFailUnlink).2).isNotFound = false := by decide

/-- C3 (amended): the handler never checks that the folder exists; when the
id matches no folder row and no file row, the two DELETEs affect nothing
and the call reports success with the state unchanged — NotFound is never
produced. -/
theorem deleteFolder_missing_id_reports_success (st : NasState) (id : String)
    (uf : String → Bool)
    (hfo : ∀ f ∈ st.folders, f.id ≠ id) (hfi : ∀ f ∈ st.files, f.folder_id ≠ some id) :
    deleteFolder st id uf = (st, .okSuccess) := by
  unfold deleteFolder
  have h1 : st.files.filter (fun f => f.folder_id == some id) = [] := by
    rw [List.filter_eq_nil_iff]
    intro f hf
    simpa using hfi f hf
  rw [h1]
  have h2 : st.folders.filter (fun f => !(f.id == id)) = st.folders := by
    rw [List.filter_eq_self]
    intro f hf
    simpa using hfo f hf
  have h3 : st.files.filter (fun f => !(f.folder_id == some id)) = st.files := by
    rw [List.filter_eq_self]
    intro f hf
    simpa using hfi f hf
  simp [unlinkLoop, h2, h3]

/-- C3 witness: a store holding one folder "f1"; deleting the absent id
"zz" succeeds and changes nothing. -/
theorem deleteFolder_missing_id_reports_success_witness :
    deleteFolder ⟨[⟨"f1", "F1", none, 0⟩], [], []⟩ "zz" noFailUnlink =
      (⟨[⟨"f1", "F1", none, 0⟩], [], []⟩, .okSuccess) :=
  deleteFolder_missing_id_reports_success ⟨[⟨"f1", "F1", none, 0⟩], [], []⟩ "zz"
    noFailUnlink (by decide) (by decide)

/-- C4 counterexample: at a store where the row with id "a" exists but its
blob key "k1" is absent from the uploads directory, the download handler
does not fail with a distinct BlobMissing error — it makes no blob check
and answers with the download of the stored key (whose transmission then
fails inside the framework). The handler's only outcomes are the 404 body
and the download attempt. -/
theorem downloadFile_missing_blob_counterexample :
    findFile stBlobGone "a" = some fileA ∧
    fileA.name ∉ stBlobGone.blobs ∧
    downloadFile stBlobGone "a" = .download "k1" "o" := by decide

/-- C4 (amended): DownloadFile answers 404 NotFound exactly when no row
with the id exists; when the row exists the handler issues the download of
the stored storage key unconditionally, whether or not the blob is present
— no BlobMissing error distinct from NotFound is ever produced. -/
theorem downloadFile_spec (st : NasState) (id : String) :
    (findFile st id = none → downloadFile st id = .notFound "File not found") ∧
    (∀ f, findFile st id = some f →
      downloadFile st id = .download f.name f.original_name) := by
  constructor
  · intro h
    unfold downloadFile
    rw [h]
  · intro f h
    unfold downloadFile
    rw [h]

/-- C4 witness: both branches of the amended statement at concrete stores. -/
theorem downloadFile_spec_witness :
    downloadFile initState "zz" = .notFound "File not found" ∧
    downloadFile stBlobGone "a" = .download "k1" "o" :=
  ⟨(downloadFile_spec initState "zz").1 (by decide),
   (downloadFile_spec stBlobGone "a").2 fileA (by decide)⟩

/-- No row of the files table survives the DELETE for its own id: looking
the id up after filtering it out yields nothing. -/
theorem find_remaining_eq_none (l : List FileRow) (id : String) :
    (l.filter (fun g => !(g.id == id))).find? (fun f => f.id == id) = none := by
  rw [List.find?_eq_none]
  intro a ha
  have h := (List.mem_filter.mp ha).2
  simpa using h

/-- C5: DeleteFile on an existing row: an already-absent blob is success
(the row is removed, the blob list untouched); a real unlink failure
answers 500 and preserves the whole state, the metadata row included; any
success leaves neither the row nor the blob behind; and a second call on
the same id answers 404 NotFound without changing anything — so the blob
is never resurrected. -/
theorem deleteFile_spec (st : NasState) (id : String) (uf : String → Bool) (f : FileRow)
    (hf : findFile st id = some f) (hnd : st.blobs.Nodup) :
    (f.name ∉ st.blobs → deleteFile st id uf =
      ({ st with files := st.files.filter (fun g => !(g.id == id)) }, .okSuccess)) ∧
    (f.name ∈ st.blobs → uf f.name = true →
      deleteFile st id uf = (st, .serverError "Failed to delete file")) ∧
    ((deleteFile st id uf).2 = .okSuccess →
      findFile (deleteFile st id uf).1 id = none ∧
      f.name ∉ (deleteFile st id uf).1.blobs) ∧
    ((deleteFile st id uf).2 = .okSuccess →
      deleteFile (deleteFile st id uf).1 id uf =
        ((deleteFile st id uf).1, .notFound "File not found")) := by
  have hstep : deleteFile st id uf =
      (if st.blobs.contains f.name then
        if uf f.name then (st, .serverError "Failed to delete file")
        else ({ st with blobs := st.blobs.erase f.name, files := st.files.filter (fun g => !(g.id == id)) }, .okSuccess)
      else ({ st with files := st.files.filter (fun g => !(g.id == id)) }, .okSuccess)) := by
    unfold deleteFile
    rw [hf]
  by_cases hc : f.name ∈ st.blobs
  · have hcb : st.blobs.contains f.name = true := by
      simpa using hc
    by_cases hu : uf f.name = true
    · rw [hstep, if_pos hcb, if_pos hu]
      refine ⟨fun hn => absurd hc hn, fun _ _ => rfl, ?_, ?_⟩
      · intro h
        exact absurd h (by simp)
      · intro h
        exact absurd h (by simp)
    · have hu2 : uf f.name = false := by
        simpa using hu
      rw [hstep, if_pos hcb, if_neg (by simp [hu2])]
      refine ⟨fun hn => absurd hc hn, fun _ h => absurd h (by simp [hu2]), ?_, ?_⟩
      · intro _
        refine ⟨find_remaining_eq_none st.files id, ?_⟩
        exact List.Nodup.not_mem_erase hnd
      · intro _
        unfold deleteFile findFile
        rw [find_remaining_eq_none st.files id]
  · have hcb : st.blobs.contains f.name = false := by
      simpa using hc
    rw [hstep, if_neg (by simpa using hc)]
    refine ⟨fun _ => rfl, fun hm => absurd hm hc, ?_, ?_⟩
    · intro _
      exact ⟨find_remaining_eq_none st.files id, hc⟩
    · intro _
      unfold deleteFile findFile
      rw [find_remaining_eq_none st.files id]

/-- C5 witness: deleting the single file of the fixture store succeeds and
empties the files table while its blob key "k1" is still present before
and absent after. -/
theorem deleteFile_spec_witness :
    fileA.name ∉ (⟨[], [], ["k2"]⟩ : NasState).blobs ∧
    deleteFile ⟨[], [fileA], ["k2"]⟩ "a" noFailUnlink =
      (⟨[], [], ["k2"]⟩, .okSuccess) := by
  have h := (deleteFile_spec ⟨[], [fileA], ["k2"]⟩ "a" noFailUnlink fileA
    (by decide) (by decide)).1 (by decide)
  refine ⟨by decide, ?_⟩
  rw [h]
  decide

/-- C6 counterexample: renaming an id that resolves to no file and no
folder reports success with HTTP 200, not the 404 NotFound the claim
states (the UPDATE simply matches no row). -/
theorem renameEntry_missing_id_counterexample :
    renameEntry initState "x" "file" "n" = (initState, .okSuccess) ∧
    ((renameEntry initState "x" "file" "n").2).isNotFound = false := by decide

/-- C6 (amended): an empty new name is rejected with 400 and no stored name
changes; but an id/kind that resolves to no entity is not detected — the
update matches no row and the call reports success with the state
unchanged, never NotFound. -/
theorem renameEntry_spec (st : NasState) (id ty newName : String) :
    (newName = "" → renameEntry st id ty newName = (st, .badRequest "Missing parameters")) ∧
    (id ≠ "" → ty ≠ "" → newName ≠ "" →
      (∀ f ∈ st.files, f.id ≠ id) → (∀ f ∈ st.folders, f.id ≠ id) →
      renameEntry st id ty newName = (st, .okSuccess)) := by
  constructor
  · intro h
    simp [renameEntry, h]
  · intro hid hty hnn hfi hfo
    have h1 : st.files.map
        (fun f => if f.id == id then { f with original_name := newName } else f) =
        st.files :=
      Eq.trans
        (List.map_congr_left (fun a ha => by rw [if_neg (by simpa using hfi a ha)]))
        (List.map_id' st.files)
    have h2 : st.folders.map
        (fun f => if f.id == id then { f with name := newName } else f) =
        st.folders :=
      Eq.trans
        (List.map_congr_left (fun a ha => by rw [if_neg (by simpa using hfo a ha)]))
        (List.map_id' st.folders)
    unfold renameEntry
    rw [if_neg (by simp [hid, hty, hnn])]
    by_cases hkind : ty = "file"
    · rw [if_pos hkind]
      exact congrArg (fun l => (({ st with files := l } : NasState), ApiResult.okSuccess)) h1
    · rw [if_neg hkind]
      exact congrArg (fun l => (({ st with folders := l } : NasState), ApiResult.okSuccess)) h2

/-- C6 witness: at the one-file store, renaming file "a" to the empty name
is rejected and nothing changes; renaming the absent id "zz" succeeds
without changing anything. -/
theorem renameEntry_spec_witness :
    renameEntry stOne "a" "file" "" = (stOne, .badRequest "Missing parameters") ∧
    renameEntry stOne "zz" "file" "n" = (stOne, .okSuccess) :=
  ⟨(renameEntry_spec stOne "a" "file" "").1 rfl,
   (renameEntry_spec stOne "zz" "file" "n").2 (by decide) (by decide) (by decide)
     (by decide) (by decide)⟩

/-- The JavaScript `|| 0` on the SQL SUM collapses exactly the NULL of the
empty table: the reported total is always the sum of the sizes. -/
theorem sqlSum_getD (xs : List Nat) : (sqlSum xs).getD 0 = xs.sum := by
  unfold sqlSum
  by_cases h : xs.isEmpty
  · rw [if_pos h]
    rw [List.isEmpty_iff] at h
    simp [h]
  · rw [if_neg h]
    rfl

/-- Two stats responses agree once their two fields do. -/
theorem statsExt {a b : Stats} (hc : a.count = b.count) (ht : a.totalSize = b.totalSize) :
    a = b := by
  cases a
  cases b
  cases hc
  cases ht
  rfl

/-- C7: the stats are always the row count and the size total of the files
table — zero values, not NULL, on the empty table; each successful upload
adds one to the count and the uploaded size to the total; each successful
single-file delete subtracts them. -/
theorem computeStats_spec (st : NasState) :
    (computeStats st).count = st.files.length ∧
    (computeStats st).totalSize = (st.files.map (fun f => f.size)).sum ∧
    (st.files = [] → computeStats st = ⟨0, 0⟩) ∧
    (∀ fid key origName mime size folderIdWire date,
      (uploadFile st fid key origName mime size folderIdWire date).2 = .okIdName fid origName →
      computeStats (uploadFile st fid key origName mime size folderIdWire date).1 =
        ⟨(computeStats st).count + 1, (computeStats st).totalSize + size⟩) ∧
    (∀ id uf f, findFile st id = some f →
      st.files.filter (fun g => g.id == id) = [f] →
      (deleteFile st id uf).2 = .okSuccess →
      computeStats (deleteFile st id uf).1 =
        ⟨(computeStats st).count - 1, (computeStats st).totalSize - f.size⟩) := by
  have htot : ∀ s : NasState,
      (computeStats s).totalSize = (s.files.map (fun f => f.size)).sum := by
    intro s
    exact sqlSum_getD (s.files.map (fun f => f.size))
  refine ⟨rfl, htot st, ?_, ?_, ?_⟩
  · intro h
    unfold computeStats sqlSum
    rw [h]
    rfl
  · intro fid key origName mime size folderIdWire date hok
    by_cases hany : (st.files.any (fun f => f.id == fid)) = true
    · exfalso
      apply absurd hok
      simp [uploadFile, hany]
    · have hres : (uploadFile st fid key origName mime size folderIdWire date).1.files =
          st.files ++ [⟨fid, key, origName, mime, size, resolveRoot folderIdWire, date⟩] := by
        simp [uploadFile, hany]
      refine statsExt ?_ ?_
      · show (uploadFile st fid key origName mime size folderIdWire date).1.files.length =
          st.files.length + 1
        rw [hres]
        simp
      · show (computeStats (uploadFile st fid key origName mime size folderIdWire date).1).totalSize =
          (computeStats st).totalSize + size
        rw [htot, htot, hres]
        simp
  · intro id uf f hf hfilter hok
    have hfiles : (deleteFile st id uf).1.files =
        st.files.filter (fun g => !(g.id == id)) := by
      by_cases hc : f.name ∈ st.blobs
      · by_cases hu : uf f.name = true
        · exfalso
          have hres : deleteFile st id uf = (st, .serverError "Failed to delete file") := by
            simp [deleteFile, hf, hc, hu]
          rw [hres] at hok
          exact absurd hok (by simp)
        · simp [deleteFile, hf, hc, hu]
      · simp [deleteFile, hf, hc]
    have hperm : List.Perm (f :: st.files.filter (fun g => !(g.id == id))) st.files := by
      have h1 := List.filter_append_perm (fun g => g.id == id) st.files
      rw [hfilter] at h1
      simpa using h1
    have hlen : st.files.length =
        (st.files.filter (fun g => !(g.id == id))).length + 1 := by
      have h2 := hperm.length_eq
      simp at h2
      omega
    have hsum : (st.files.map (fun g => g.size)).sum =
        f.size + ((st.files.filter (fun g => !(g.id == id))).map (fun g => g.size)).sum := by
      have h3 := (hperm.map (fun g => g.size)).sum_eq
      simpa using h3.symm
    refine statsExt ?_ ?_
    · show (deleteFile st id uf).1.files.length = st.files.length - 1
      rw [hfiles]
      omega
    · show (computeStats (deleteFile st id uf).1).totalSize =
        (computeStats st).totalSize - f.size
      rw [htot, htot, hfiles, hsum]
      omega

/-- C7 witness: from the empty store, one successful upload of a 5-byte
file yields count 1 and total size 5. -/
theorem computeStats_spec_witness :
    computeStats (uploadFile initState "a" "k1" "o" "m" 5 "root" 0).1 = ⟨1, 5⟩ := by
  have h := (computeStats_spec initState).2.2.2.1 "a" "k1" "o" "m" 5 "root" 0 (by decide)
  simpa using h

/-- C8: ListContents returns exactly the child folders (by `parent_id`)
and files (by `folder_id`) of the resolved folder reference — "root" means
NULL — with the folders a permutation of the matching rows sorted
ascending by name and the files sorted descending by upload date. The
handler only reads: its embedding returns a response and no state. -/
theorem getContents_spec (st : NasState) (wire : String) :
    List.Perm (getContents st wire).folders
      (st.folders.filter (fun f => f.parent_id == resolveRoot wire)) ∧
    List.Sorted folderNameLe (getContents st wire).folders ∧
    (∀ f, f ∈ (getContents st wire).folders ↔
      f ∈ st.folders ∧ f.parent_id = resolveRoot wire) ∧
    List.Perm (getContents st wire).files
      (st.files.filter (fun f => f.folder_id == resolveRoot wire)) ∧
    List.Sorted fileDateGe (getContents st wire).files ∧
    (∀ f, f ∈ (getContents st wire).files ↔
      f ∈ st.files ∧ f.folder_id = resolveRoot wire) := by
  have hgf : (getContents st wire).folders =
      List.insertionSort folderNameLe
        (st.folders.filter (fun f => f.parent_id == resolveRoot wire)) := rfl
  have hgi : (getContents st wire).files =
      List.insertionSort fileDateGe
        (st.files.filter (fun f => f.folder_id == resolveRoot wire)) := rfl
  refine ⟨?_, ?_, ?_, ?_, ?_, ?_⟩
  · rw [hgf]
    exact List.perm_insertionSort folderNameLe _
  · rw [hgf]
    exact List.sorted_insertionSort folderNameLe _
  · intro f
    rw [hgf, (List.perm_insertionSort folderNameLe _).mem_iff, List.mem_filter]
    simp
  · rw [hgi]
    exact List.perm_insertionSort fileDateGe _
  · rw [hgi]
    exact List.sorted_insertionSort fileDateGe _
  · intro f
    rw [hgi, (List.perm_insertionSort fileDateGe _).mem_iff, List.mem_filter]
    simp

/-- The boundary translation never yields the stored sentinel: whatever
string arrives on the wire, the resolved reference is not `some "root"`. -/
theorem resolveRoot_ne_root (w : String) : resolveRoot w ≠ some "root" := by
  unfold resolveRoot
  by_cases h : w = "root"
  · simp [h]
  · simp [h]

/-- CreateFolder adds at most one row, whose parent is the resolved wire
reference; the files table is untouched. -/
theorem createFolder_effect (st : NasState) (i n p : String) (t : Nat) :
    (∀ f ∈ (createFolder st i n p t).1.folders,
      f ∈ st.folders ∨ f.parent_id = resolveRoot p) ∧
    (createFolder st i n p t).1.files = st.files := by
  by_cases hn : n = ""
  · constructor
    · intro f hf
      simp [createFolder, hn] at hf
      exact Or.inl hf
    · simp [createFolder, hn]
  · by_cases hdup : (st.folders.any (fun g => g.id == i)) = true
    · constructor
      · intro f hf
        simp [createFolder, hn, hdup] at hf
        exact Or.inl hf
      · simp [createFolder, hn, hdup]
    · constructor
      · intro f hf
        simp [createFolder, hn, hdup] at hf
        rcases hf with hf | hf
        · exact Or.inl hf
        · right
          rw [hf]
      · simp [createFolder, hn, hdup]

/-- UploadFile adds at most one row, whose folder is the resolved wire
reference; the folders table is untouched. -/
theorem uploadFile_effect (st : NasState) (fid key o m : String) (sz : Nat)
    (w : String) (d : Nat) :
    (uploadFile st fid key o m sz w d).1.folders = st.folders ∧
    (∀ f ∈ (uploadFile st fid key o m sz w d).1.files,
      f ∈ st.files ∨ f.folder_id = resolveRoot w) := by
  by_cases hdup : (st.files.any (fun g => g.id == fid)) = true
  · constructor
    · simp [uploadFile, hdup]
    · intro f hf
      simp [uploadFile, hdup] at hf
      exact Or.inl hf
  · constructor
    · simp [uploadFile, hdup]
    · intro f hf
      simp [uploadFile, hdup] at hf
      rcases hf with hf | hf
      · exact Or.inl hf
      · right
        rw [hf]

/-- DeleteFolder only removes rows: every surviving row was present. -/
theorem deleteFolder_effect (st : NasState) (i : String) (uf : String → Bool) :
    (∀ f ∈ (deleteFolder st i uf).1.folders, f ∈ st.folders) ∧
    (∀ f ∈ (deleteFolder st i uf).1.files, f ∈ st.files) := by
  cases hres : unlinkLoop uf st.blobs
      ((st.files.filter (fun f => f.folder_id == some i)).map (fun f => f.name)) with
  | error bs =>
    constructor
    · intro f hf
      simpa [deleteFolder, hres] using hf
    · intro f hf
      simpa [deleteFolder, hres] using hf
  | ok bs =>
    constructor
    · intro f hf
      simp [deleteFolder, hres] at hf
      exact hf.1
    · intro f hf
      simp [deleteFolder, hres] at hf
      exact hf.1

/-- DeleteFile only removes file rows; the folders table is untouched. -/
theorem deleteFile_effect (st : NasState) (i : String) (uf : String → Bool) :
    (deleteFile st i uf).1.folders = st.folders ∧
    (∀ f ∈ (deleteFile st i uf).1.files, f ∈ st.files) := by
  cases hres : findFile st i with
  | none =>
    constructor
    · simp [deleteFile, hres]
    · intro f hf
      simpa [deleteFile, hres] using hf
  | some g =>
    by_cases hc : g.name ∈ st.blobs
    · by_cases hu : uf g.name = true
      · constructor
        · simp [deleteFile, hres, hc, hu]
        · intro f hf
          simpa [deleteFile, hres, hc, hu] using hf
      · constructor
        · simp [deleteFile, hres, hc, hu]
        · intro f hf
          simp [deleteFile, hres, hc, hu] at hf
          exact hf.1
    · constructor
      · simp [deleteFile, hres, hc]
      · intro f hf
        simp [deleteFile, hres, hc] at hf
        exact hf.1

/-- Rename only edits name fields: every resulting row keeps the folder
reference of a row that was present. -/
theorem renameEntry_effect (st : NasState) (i ty n : String) :
    (∀ f ∈ (renameEntry st i ty n).1.folders, ∃ g ∈ st.folders, f.parent_id = g.parent_id) ∧
    (∀ f ∈ (renameEntry st i ty n).1.files, ∃ g ∈ st.files, f.folder_id = g.folder_id) := by
  unfold renameEntry
  split
  · exact ⟨fun f hf => ⟨f, hf, rfl⟩, fun f hf => ⟨f, hf, rfl⟩⟩
  · split
    · refine ⟨fun f hf => ⟨f, hf, rfl⟩, fun f hf => ?_⟩
      have hf2 : f ∈ st.files.map
          (fun g => if g.id == i then { g with original_name := n } else g) := hf
      obtain ⟨g, hg, hfg⟩ := List.mem_map.mp hf2
      refine ⟨g, hg, ?_⟩
      rw [← hfg]
      by_cases hgi : (g.id == i) = true
      · simp [hgi]
      · simp [hgi]
    · refine ⟨fun f hf => ?_, fun f hf => ⟨f, hf, rfl⟩⟩
      have hf2 : f ∈ st.folders.map
          (fun g => if g.id == i then { g with name := n } else g) := hf
      obtain ⟨g, hg, hfg⟩ := List.mem_map.mp hf2
      refine ⟨g, hg, ?_⟩
      rw [← hfg]
      by_cases hgi : (g.id == i) = true
      · simp [hgi]
      · simp [hgi]

/-- Serving any single request preserves the no-stored-"root" invariant. -/
theorem noRootStored_step (st : NasState) (op : Op) (h : noRootStored st) :
    noRootStored (step st op) := by
  obtain ⟨hfo, hfi⟩ := h
  cases op with
  | contents w => exact ⟨hfo, hfi⟩
  | listAll => exact ⟨hfo, hfi⟩
  | download i => exact ⟨hfo, hfi⟩
  | stats => exact ⟨hfo, hfi⟩
  | newFolder i n p t =>
    refine ⟨?_, ?_⟩
    · intro f hf
      rcases (createFolder_effect st i n p t).1 f hf with hm | hp
      · exact hfo f hm
      · rw [hp]
        exact resolveRoot_ne_root p
    · intro f hf
      rw [show step st (.newFolder i n p t) = (createFolder st i n p t).1 from rfl,
        (createFolder_effect st i n p t).2] at hf
      exact hfi f hf
  | delFolder i uf =>
    refine ⟨?_, ?_⟩
    · intro f hf
      exact hfo f ((deleteFolder_effect st i uf).1 f hf)
    · intro f hf
      exact hfi f ((deleteFolder_effect st i uf).2 f hf)
  | upload fid key o m sz w d =>
    refine ⟨?_, ?_⟩
    · intro f hf
      rw [show step st (.upload fid key o m sz w d) = (uploadFile st fid key o m sz w d).1
        from rfl, (uploadFile_effect st fid key o m sz w d).1] at hf
      exact hfo f hf
    · intro f hf
      rcases (uploadFile_effect st fid key o m sz w d).2 f hf with hm | hp
      · exact hfi f hm
      · rw [hp]
        exact resolveRoot_ne_root w
  | delFile i uf =>
    refine ⟨?_, ?_⟩
    · intro f hf
      rw [show step st (.delFile i uf) = (deleteFile st i uf).1 from rfl,
        (deleteFile_effect st i uf).1] at hf
      exact hfo f hf
    · intro f hf
      exact hfi f ((deleteFile_effect st i uf).2 f hf)
  | renameOp i ty n =>
    refine ⟨?_, ?_⟩
    · intro f hf
      obtain ⟨g, hg, hpar⟩ := (renameEntry_effect st i ty n).1 f hf
      rw [hpar]
      exact hfo g hg
    · intro f hf
      obtain ⟨g, hg, hpar⟩ := (renameEntry_effect st i ty n).2 f hf
      rw [hpar]
      exact hfi g hg

/-- C9: every handler applies the "root"-to-NULL translation at the
boundary, so along every request sequence served from a fresh store no
stored folder `parent_id` and no stored file `folder_id` ever equals the
literal string "root". -/
theorem wire_root_never_stored (ops : List Op) : noRootStored (runOps ops) := by
  have hrun : ∀ l : List Op, ∀ st : NasState,
      noRootStored st → noRootStored (l.foldl step st) := by
    intro l
    induction l with
    | nil =>
      intro st h
      exact h
    | cons a t ih =>
      intro st h
      exact ih (step st a) (noRootStored_step st a h)
  refine hrun ops initState ⟨?_, ?_⟩
  · intro f hf
    exact absurd hf (List.not_mem_nil f)
  · intro f hf
    exact absurd hf (List.not_mem_nil f)

/-- C10: when the non-empty kind is anything other than the exact string
"file" — "folder" or any unrecognized value — the update is applied to the
folders table, the files table is left unchanged, and the call succeeds:
the kind is never validated against a set of known kinds. -/
theorem renameEntry_unknown_kind_updates_folders (st : NasState) (id ty newName : String)
    (hid : id ≠ "") (hty : ty ≠ "") (hnn : newName ≠ "") (hfile : ty ≠ "file") :
    renameEntry st id ty newName =
      ({ st with folders := st.folders.map (fun f => if f.id == id then { f with name := newName } else f) }, .okSuccess) ∧
    (renameEntry st id ty newName).1.files = st.files := by
  have h : renameEntry st id ty newName =
      ({ st with folders := st.folders.map (fun f => if f.id == id then { f with name := newName } else f) }, .okSuccess) := by
    unfold renameEntry
    rw [if_neg (by simp [hid, hty, hnn]), if_neg hfile]
  refine ⟨h, ?_⟩
  rw [h]

/-- C10 witness: the unrecognized kind "banana" renames the folder row
"f1" and leaves the files table alone. -/
theorem renameEntry_unknown_kind_updates_folders_witness :
    renameEntry ⟨[⟨"f1", "Old", none, 0⟩], [fileA], []⟩ "f1" "banana" "New" =
      (⟨[⟨"f1", "New", none, 0⟩], [fileA], []⟩, .okSuccess) := by
  have h := (renameEntry_unknown_kind_updates_folders
    ⟨[⟨"f1", "Old", none, 0⟩], [fileA], []⟩ "f1" "banana" "New"
    (by decide) (by decide) (by decide) (by decide)).1
  rw [h]
  decide

end PiNas
